import Mathlib

/-!
Verification of `scripts/review-hotspots.py`, a one-shot batch script that
marks a fixed list of SonarCloud security hotspots as reviewed/SAFE.

The script is embedded shallowly:
* `quote_plus`, `urlencode`, `b64encode` model the Python library functions
  `urllib.parse.quote_plus`, `urllib.parse.urlencode` (insertion order of the
  dict literal) and `base64.b64encode` on UTF-8 bytes;
* `Request` is the outbound HTTP request (`urllib.request.Request`);
* `review` is the function `review(key, resolution, comment, label)`:
  it builds the request, consults an HTTP oracle (standing for
  `urllib.request.urlopen`, success = returns, error = raises with a message),
  updates the two global counters and appends one console line;
* `table` is the literal sequence of 59 `review(...)` calls, in source order;
* `script` is the module toplevel: the `SONAR_TOKEN` check, the batch,
  the blank line and the summary line, together with the process exit code.

The oracle takes the index of the call (how many requests were issued before
it) so that distinct calls may succeed or fail independently, and the full
request, so that independence of the request from inputs is expressible.
-/

/-- Uppercase hexadecimal digit for a value below 16,
as produced by `urllib.parse.quote`. -/
def hexDigit (n : Nat) : Char :=
  if n < 10 then Char.ofNat (48 + n) else Char.ofNat (55 + n)

/-- Bytes that `urllib.parse.quote_plus` leaves unescaped: ASCII letters,
digits, and the marks `_`, `.`, `-`, `~`. -/
def isAlwaysSafe (b : Nat) : Bool :=
  decide ((65 ≤ b ∧ b ≤ 90) ∨ (97 ≤ b ∧ b ≤ 122) ∨ (48 ≤ b ∧ b ≤ 57) ∨
    b = 95 ∨ b = 46 ∨ b = 45 ∨ b = 126)

/-- Encoding of a single byte under `urllib.parse.quote_plus` with
`safe` empty: space becomes `+`, safe bytes stay, others become `%XX`. -/
def quotePlusByte (b : Nat) : String :=
  if b = 32 then "+"
  else if isAlwaysSafe b then String.singleton (Char.ofNat b)
  else "%" ++ String.singleton (hexDigit (b / 16)) ++ String.singleton (hexDigit (b % 16))

/-- UTF-8 encoding of one character as its list of byte values. -/
def utf8Bytes (c : Char) : List Nat :=
  let n := c.toNat
  if n < 128 then [n]
  else if n < 2048 then [192 + n / 64, 128 + n % 64]
  else if n < 65536 then [224 + n / 4096, 128 + n / 64 % 64, 128 + n % 64]
  else [240 + n / 262144, 128 + n / 4096 % 64, 128 + n / 64 % 64, 128 + n % 64]

/-- The UTF-8 byte values of a string, as Python `str.encode()` yields them. -/
def strBytes (s : String) : List Nat := s.data.flatMap utf8Bytes

/-- `urllib.parse.quote_plus` on a string, applied to its UTF-8 bytes. -/
def quote_plus (s : String) : String :=
  ((strBytes s).map quotePlusByte).foldl (· ++ ·) ""

/-- `urllib.parse.urlencode` on an association list (the Python dict literal
preserves insertion order): quote each key and value and join with `&`, `=`. -/
def urlencode (fields : List (String × String)) : String :=
  String.intercalate "&" (fields.map (fun p => quote_plus p.1 ++ "=" ++ quote_plus p.2))

/-- Value of a base64 digit, standard alphabet. -/
def b64Char (n : Nat) : Char :=
  if n < 26 then Char.ofNat (65 + n)
  else if n < 52 then Char.ofNat (97 + (n - 26))
  else if n < 62 then Char.ofNat (48 + (n - 52))
  else if n = 62 then Char.ofNat 43
  else Char.ofNat 47

/-- Standard base64 of a byte list, with `=` padding, as
`base64.b64encode` produces. -/
def b64encodeList : List Nat → String
  | [] => ""
  | [a] =>
      String.mk [b64Char (a / 4), b64Char (a % 4 * 16)] ++ "=="
  | [a, b] =>
      String.mk [b64Char (a / 4), b64Char (a % 4 * 16 + b / 16), b64Char (b % 16 * 4)] ++ "="
  | a :: b :: c :: rest =>
      String.mk [b64Char (a / 4), b64Char (a % 4 * 16 + b / 16),
        b64Char (b % 16 * 4 + c / 64), b64Char (c % 64)] ++ b64encodeList rest

/-- `base64.b64encode` of the UTF-8 bytes of a string, decoded back to ASCII. -/
def b64encode (s : String) : String :=
  b64encodeList (strBytes s)

/-- The fixed endpoint URL (`API` in the script). -/
def API : String := "https://sonarcloud.io/api/hotspots/change_status"

/-- An outbound HTTP request as the script constructs it:
method, URL, url-encoded form body, and headers. -/
structure Request where
  url : String
  method : String
  body : String
  headers : List (String × String)
deriving DecidableEq, Repr

/-- One entry of the static table: the arguments of one `review(...)` call. -/
structure Entry where
  key : String
  resolution : String
  comment : String
  label : String
deriving DecidableEq, Repr

/-- The request `review` builds: POST to `API`, the four form fields
`hotspot`, `status` (literal REVIEWED), `resolution`, `comment`, and Basic
auth with the token as username and empty password.  The `label` argument of
`review` does not occur here. -/
def mkRequest (token key resolution comment : String) : Request :=
  { url := API
    method := "POST"
    body := urlencode [("hotspot", key), ("status", "REVIEWED"),
      ("resolution", resolution), ("comment", comment)]
    headers := [("Authorization", "Basic " ++ b64encode (token ++ ":"))] }

/-- The mutable run state: the two counters `ok` and `fail`, the console
lines printed so far, and the requests issued so far (in order). -/
structure RunState where
  ok : Nat
  fail : Nat
  output : List String
  requests : List Request
deriving DecidableEq, Repr

/-- The state before any call: both counters zero, nothing printed,
no request issued. -/
def initState : RunState := { ok := 0, fail := 0, output := [], requests := [] }

/-- The HTTP oracle standing for `urllib.request.urlopen`: given the index of
the call and the request, either return (success) or raise with a message. -/
def HttpClient : Type := Nat → Request → Except String Unit

/-- The function `review(key, resolution, comment, label)`: build the request,
attempt it; on return increment `ok` and print the OK line; on an exception
increment `fail` and print the FAIL line with the error text.  The exception
is caught, so the function always returns a state. -/
def review (token : String) (http : HttpClient)
    (key resolution comment label : String) (s : RunState) : RunState :=
  match http s.requests.length (mkRequest token key resolution comment) with
  | Except.ok _ =>
      { s with ok := s.ok + 1
               output := s.output ++ ["  OK: " ++ label]
               requests := s.requests ++ [mkRequest token key resolution comment] }
  | Except.error e =>
      { s with fail := s.fail + 1
               output := s.output ++ ["  FAIL: " ++ label ++ " - " ++ e]
               requests := s.requests ++ [mkRequest token key resolution comment] }

/-- Run `review` once per entry, left to right: the sequence of toplevel
`review(...)` calls. -/
def runEntries (token : String) (http : HttpClient) : List Entry → RunState → RunState
  | [], s => s
  | e :: es, s => runEntries token http es (review token http e.key e.resolution e.comment e.label s)

/-- The summary line printed after the table is exhausted. -/
def summaryLine (ok fail : Nat) : String :=
  "Results: " ++ toString ok ++ "/" ++ toString (ok + fail) ++
    " succeeded, " ++ toString fail ++ " failed"

/-- Result of one process run: console output, exit code, issued requests. -/
structure ScriptResult where
  output : List String
  exitCode : Nat
  requests : List Request
deriving DecidableEq, Repr

/-- The static table: the 59 `review(...)` calls of the script, in order. -/
def table : List Entry := [
  ⟨"AZtta9QmToFX3SmMQ7bJ", "SAFE", "Safe: form field variable names (password, newPassword). UI input labels, not hardcoded credentials.", "src/components/EditProfile.tsx:244"⟩,
  ⟨"AZtta9QmToFX3SmMQ7bK", "SAFE", "Safe: form field variable names (password, newPassword). UI input labels, not hardcoded credentials.", "src/components/EditProfile.tsx:246"⟩,
  ⟨"AZtta9QmToFX3SmMQ7bL", "SAFE", "Safe: form field variable names (password, newPassword). UI input labels, not hardcoded credentials.", "src/components/EditProfile.tsx:250"⟩,
  ⟨"AZuMQzPTZIQvlZoniyXN", "SAFE", "Safe: test fixture token in unit tests. Not a real credential.", "server/__tests__/authLogin.test.js:199"⟩,
  ⟨"AZwZ6l7DsWcbYLKTEKCA", "SAFE", "Safe: variable names referencing password fields in config/logger. No actual secrets hardcoded.", "create_admin.js:30"⟩,
  ⟨"AZu6WjjnmfTcMxN9gFQI", "SAFE", "Safe: variable names referencing password fields in config/logger. No actual secrets hardcoded.", "server/config/templateConfig.js:213"⟩,
  ⟨"AZu6WjjnmfTcMxN9gFQJ", "SAFE", "Safe: variable names referencing password fields in config/logger. No actual secrets hardcoded.", "server/config/templateConfig.js:214"⟩,
  ⟨"AZxL7LqKoEmmv2ZGoJce", "SAFE", "Safe: variable names referencing password fields in config/logger. No actual secrets hardcoded.", "server/middleware/adminActivityLogger.js:100"⟩,
  ⟨"AZuMKHzE0toT4C50HugK", "SAFE", "Safe: simple bounded validation regex (NIP/NISN format). No nested quantifiers, not vulnerable to ReDoS.", "server/__tests__/siswa.test.js:51"⟩,
  ⟨"AZureTLYrVcAIc1a_eDS", "SAFE", "Safe: simple bounded validation regex (NIP/NISN format). No nested quantifiers, not vulnerable to ReDoS.", "server/controllers/adminController.js:40"⟩,
  ⟨"AZureTERrVcAIc1a_eDN", "SAFE", "Safe: simple bounded validation regex (NIP/NISN format). No nested quantifiers, not vulnerable to ReDoS.", "server/controllers/guruController.js:101"⟩,
  ⟨"AZvWL8Ouvyg5ykpamw3d", "SAFE", "Safe: simple bounded validation regex (NIP/NISN format). No nested quantifiers, not vulnerable to ReDoS.", "server/controllers/siswaController.js:77"⟩,
  ⟨"AZwKi7OlPKS_rX1gUILF", "SAFE", "Safe: simple bounded validation regex (NIP/NISN format). No nested quantifiers, not vulnerable to ReDoS.", "server/controllers/siswaController.js:381"⟩,
  ⟨"AZwKi7HuPKS_rX1gUIK-", "SAFE", "Safe: simple bounded validation regex (NIP/NISN format). No nested quantifiers, not vulnerable to ReDoS.", "server/utils/downloadAccess.js:14"⟩,
  ⟨"AZuggQCdyOkfahxTWorw", "SAFE", "Safe: simple bounded validation regex (NIP/NISN format). No nested quantifiers, not vulnerable to ReDoS.", "server/utils/importHelper.js:460"⟩,
  ⟨"AZus2zrCtnRoQq97Kx5p", "SAFE", "Safe: simple bounded validation regex for form inputs. No nested quantifiers, not vulnerable to ReDoS.", "src/components/EditProfile.tsx:59"⟩,
  ⟨"AZu7ZtjaFUgiTSLLQf0M", "SAFE", "Safe: simple bounded validation regex for form inputs. No nested quantifiers, not vulnerable to ReDoS.", "src/components/LoginForm.tsx:202"⟩,
  ⟨"AZvE9FnpfjGLNHbFrJUl", "SAFE", "Safe: simple bounded validation regex for form inputs. No nested quantifiers, not vulnerable to ReDoS.", "src/components/admin/schedules/CloneScheduleView.tsx:82"⟩,
  ⟨"AZxPsP6RJp4avvT5vBvV", "SAFE", "Safe: simple bounded validation regex for form inputs. No nested quantifiers, not vulnerable to ReDoS.", "src/components/admin/students/ManageStudentDataView.tsx:94"⟩,
  ⟨"AZvWL8Xyvyg5ykpamw3k", "SAFE", "Safe: simple bounded validation regex for form inputs. No nested quantifiers, not vulnerable to ReDoS.", "src/components/admin/students/ManageStudentsView.tsx:145"⟩,
  ⟨"AZvAlyzv-ToM7us2c5Iz", "SAFE", "Safe: simple bounded validation regex for form inputs. No nested quantifiers, not vulnerable to ReDoS.", "src/components/admin/teachers/ManageTeacherAccountsView.tsx:161"⟩,
  ⟨"AZvAly17-ToM7us2c5I-", "SAFE", "Safe: simple bounded validation regex for form inputs. No nested quantifiers, not vulnerable to ReDoS.", "src/components/admin/teachers/ManageTeacherDataView.tsx:78"⟩,
  ⟨"AZtta9f_ToFX3SmMQ71_", "SAFE", "Safe: COPY . . with .dockerignore excluding sensitive files. Standard Dockerfile pattern.", "Dockerfile:22"⟩,
  ⟨"AZtta9esToFX3SmMQ7zh", "SAFE", "Safe: COPY . . with .dockerignore excluding sensitive files. Standard Dockerfile pattern.", "docker/nginx/Dockerfile:20"⟩,
  ⟨"AZvFb10AGX_5sAzcrR2c", "SAFE", "Safe: COPY . . with .dockerignore excluding sensitive files. Standard Dockerfile pattern.", "docker/storybook/Dockerfile:13"⟩,
  ⟨"AZtta9f_ToFX3SmMQ72A", "SAFE", "Safe: runs behind nginx TLS reverse proxy. Root needed for port binding.", "Dockerfile:31"⟩,
  ⟨"AZtta9esToFX3SmMQ7zi", "SAFE", "Safe: runs behind nginx TLS reverse proxy. Root needed for port binding.", "docker/nginx/Dockerfile:27"⟩,
  ⟨"AZvFb10AGX_5sAzcrR2d", "SAFE", "Safe: runs behind nginx TLS reverse proxy. Root needed for port binding.", "docker/storybook/Dockerfile:19"⟩,
  ⟨"AZureTQQrVcAIc1a_eDT", "SAFE", "Safe: Math.random() in seeders/dev scripts for dummy data only. Not security-sensitive.", "server/scripts/generateDummyData.js:89"⟩,
  ⟨"AZureTQQrVcAIc1a_eDU", "SAFE", "Safe: Math.random() in seeders/dev scripts for dummy data only. Not security-sensitive.", "server/scripts/generateDummyData.js:97"⟩,
  ⟨"AZureTQQrVcAIc1a_eDV", "SAFE", "Safe: Math.random() in seeders/dev scripts for dummy data only. Not security-sensitive.", "server/scripts/generateDummyData.js:101"⟩,
  ⟨"AZureTQQrVcAIc1a_eDW", "SAFE", "Safe: Math.random() in seeders/dev scripts for dummy data only. Not security-sensitive.", "server/scripts/generateDummyData.js:101"⟩,
  ⟨"AZureTQQrVcAIc1a_eDX", "SAFE", "Safe: Math.random() in seeders/dev scripts for dummy data only. Not security-sensitive.", "server/scripts/generateDummyData.js:105"⟩,
  ⟨"AZureTQQrVcAIc1a_eDY", "SAFE", "Safe: Math.random() in seeders/dev scripts for dummy data only. Not security-sensitive.", "server/scripts/generateDummyData.js:129"⟩,
  ⟨"AZureTQQrVcAIc1a_eDZ", "SAFE", "Safe: Math.random() in seeders/dev scripts for dummy data only. Not security-sensitive.", "server/scripts/generateDummyData.js:303"⟩,
  ⟨"AZureTQQrVcAIc1a_eDa", "SAFE", "Safe: Math.random() in seeders/dev scripts for dummy data only. Not security-sensitive.", "server/scripts/generateDummyData.js:414"⟩,
  ⟨"AZtta9bRToFX3SmMQ7wq", "SAFE", "Safe: Math.random() in seeders/dev scripts for dummy data only. Not security-sensitive.", "server/services/system/performance-optimizer.js:154"⟩,
  ⟨"AZu6z_p1DaPmVvDt6v2Q", "SAFE", "Safe: Math.random() for UI element IDs. Not security-sensitive.", "src/components/BackupManagementView.tsx:206"⟩,
  ⟨"AZwZ6l2asWcbYLKTEKB9", "SAFE", "Safe: Math.random() for UI element IDs. Not security-sensitive.", "src/components/SimpleRestoreView.tsx:566"⟩,
  ⟨"AZtta9K8ToFX3SmMQ7Y3", "SAFE", "Safe: Math.random() for UI element IDs. Not security-sensitive.", "src/components/ui/sidebar.tsx:653"⟩,
  ⟨"AZtta9f2ToFX3SmMQ71V", "SAFE", "Safe: HTTP for local dev server. Production uses nginx TLS termination.", "server_modern.js:101"⟩,
  ⟨"AZtta9f2ToFX3SmMQ71X", "SAFE", "Safe: HTTP for local dev server. Production uses nginx TLS termination.", "server_modern.js:102"⟩,
  ⟨"AZtta9UwToFX3SmMQ7kp", "SAFE", "Safe: HTTP URL is a placeholder/reference constant. Not used for network requests.", "src/lib/academic-constants.ts:118"⟩,
  ⟨"AZtta9flToFX3SmMQ70z", "SAFE", "Acknowledged: version tags for official GitHub Actions. Acceptable risk.", ".github/workflows/deploy.yml:33"⟩,
  ⟨"AZtta9flToFX3SmMQ700", "SAFE", "Acknowledged: version tags for official GitHub Actions. Acceptable risk.", ".github/workflows/deploy.yml:36"⟩,
  ⟨"AZtta9flToFX3SmMQ701", "SAFE", "Acknowledged: version tags for official GitHub Actions. Acceptable risk.", ".github/workflows/deploy.yml:43"⟩,
  ⟨"AZtta9flToFX3SmMQ702", "SAFE", "Acknowledged: version tags for official GitHub Actions. Acceptable risk.", ".github/workflows/deploy.yml:51"⟩,
  ⟨"AZtta9fsToFX3SmMQ703", "SAFE", "Acknowledged: version tags for official GitHub Actions. Acceptable risk.", ".github/workflows/docker-build.yml:31"⟩,
  ⟨"AZtta9fsToFX3SmMQ704", "SAFE", "Acknowledged: version tags for official GitHub Actions. Acceptable risk.", ".github/workflows/docker-build.yml:34"⟩,
  ⟨"AZtta9fsToFX3SmMQ705", "SAFE", "Acknowledged: version tags for official GitHub Actions. Acceptable risk.", ".github/workflows/docker-build.yml:41"⟩,
  ⟨"AZtta9fsToFX3SmMQ706", "SAFE", "Acknowledged: version tags for official GitHub Actions. Acceptable risk.", ".github/workflows/docker-build.yml:52"⟩,
  ⟨"AZwO6O17ybMbdSR7yWhk", "SAFE", "Safe: Express version disclosure in test file only. Not exposed in production.", "server/routes/__tests__/downloadRoutes.test.js:29"⟩,
  ⟨"AZuL793iZodQflqetGFl", "SAFE", "Safe: Hardcoded IPs in test fixtures (192.168.x.x) and localhost detection. Not production config.", "server/__tests__/auth.test.js:69"⟩,
  ⟨"AZuL793iZodQflqetGFm", "SAFE", "Safe: Hardcoded IPs in test fixtures (192.168.x.x) and localhost detection. Not production config.", "server/__tests__/auth.test.js:75"⟩,
  ⟨"AZuL793iZodQflqetGFn", "SAFE", "Safe: Hardcoded IPs in test fixtures (192.168.x.x) and localhost detection. Not production config.", "server/__tests__/auth.test.js:85"⟩,
  ⟨"AZuL793iZodQflqetGFo", "SAFE", "Safe: Hardcoded IPs in test fixtures (192.168.x.x) and localhost detection. Not production config.", "server/__tests__/auth.test.js:97"⟩,
  ⟨"AZtta9bkToFX3SmMQ7w3", "SAFE", "Safe: Hardcoded IPs in test fixtures (192.168.x.x) and localhost detection. Not production config.", "server/services/system/security-system.js:669"⟩,
  ⟨"AZtta9bkToFX3SmMQ7w9", "SAFE", "Safe: Hardcoded IPs in test fixtures (192.168.x.x) and localhost detection. Not production config.", "server/services/system/security-system.js:831"⟩,
  ⟨"AZwO6O81ybMbdSR7yWhm", "SAFE", "Safe: /tmp usage in test file for temporary artifacts. Not production code.", "server/__tests__/queueSystem.test.js:35"⟩
]

/-- The module toplevel: read `SONAR_TOKEN` (empty default); if empty, print
the two diagnostic lines and exit 1 before any call; otherwise run the batch
over the table and print the blank line and the summary, exiting 0. -/
def script (envToken : Option String) (http : HttpClient) : ScriptResult :=
  let TOKEN := envToken.getD ""
  if TOKEN = "" then
    { output := ["ERROR: Set SONAR_TOKEN env var first.",
                 "Get one from: https://sonarcloud.io/account/security"]
      exitCode := 1
      requests := [] }
  else
    let s := runEntries TOKEN http table initState
    { output := s.output ++ ["", summaryLine s.ok s.fail]
      exitCode := 0
      requests := s.requests }

/-- State after the first `n` entries of the table have been processed. -/
def stateAfter (token : String) (http : HttpClient) (n : Nat) : RunState :=
  runEntries token http (table.take n) initState

/-- A console line reporting one submission: it starts with the OK marker
or with the FAIL marker. -/
def isSubmissionLine (l : String) : Bool :=
  decide (l.data.take 6 = "  OK: ".data) || decide (l.data.take 8 = "  FAIL: ".data)

/-- Oracle on which every call returns. -/
def httpAllOk : HttpClient := fun _ _ => Except.ok ()

/-- Oracle on which every call raises. -/
def httpAllFail : HttpClient := fun _ _ => Except.error "HTTP Error 404: Not Found"

/-- Oracle on which the first call raises and every later call returns. -/
def httpMixed : HttpClient := fun i _ =>
  if i = 0 then Except.error "HTTP Error 404: Not Found" else Except.ok ()

/-! ### Step lemmas about `review` -/

/-- On a returning call, `review` increments `ok`, prints the OK line and
records the request. -/
theorem review_ok_eq (token : String) (http : HttpClient)
    (key res comment label : String) (s : RunState) (u : Unit)
    (h : http s.requests.length (mkRequest token key res comment) = Except.ok u) :
    review token http key res comment label s =
      { s with ok := s.ok + 1
               output := s.output ++ ["  OK: " ++ label]
               requests := s.requests ++ [mkRequest token key res comment] } := by
  unfold review
  rw [h]

/-- On a raising call, `review` increments `fail`, prints the FAIL line with
the error text and records the request. -/
theorem review_error_eq (token : String) (http : HttpClient)
    (key res comment label e : String) (s : RunState)
    (h : http s.requests.length (mkRequest token key res comment) = Except.error e) :
    review token http key res comment label s =
      { s with fail := s.fail + 1
               output := s.output ++ ["  FAIL: " ++ label ++ " - " ++ e]
               requests := s.requests ++ [mkRequest token key res comment] } := by
  unfold review
  rw [h]

/-- Every call of `review` increments exactly one of the two counters. -/
theorem review_counters (token : String) (http : HttpClient)
    (key res comment label : String) (s : RunState) :
    ((review token http key res comment label s).ok = s.ok + 1 ∧
      (review token http key res comment label s).fail = s.fail) ∨
    ((review token http key res comment label s).fail = s.fail + 1 ∧
      (review token http key res comment label s).ok = s.ok) := by
  cases h : http s.requests.length (mkRequest token key res comment) with
  | ok u => exact Or.inl (by rw [review_ok_eq token http key res comment label s u h]; exact ⟨rfl, rfl⟩)
  | error e => exact Or.inr (by rw [review_error_eq token http key res comment label e s h]; exact ⟨rfl, rfl⟩)

/-- Every call of `review` records exactly the request it built. -/
theorem review_requests (token : String) (http : HttpClient)
    (key res comment label : String) (s : RunState) :
    (review token http key res comment label s).requests =
      s.requests ++ [mkRequest token key res comment] := by
  unfold review
  cases http s.requests.length (mkRequest token key res comment) <;> rfl

/-! ### Lemmas about the batch `runEntries` -/

/-- Running a concatenation of entry lists runs the two parts in order. -/
theorem runEntries_append (token : String) (http : HttpClient)
    (l₁ l₂ : List Entry) (s : RunState) :
    runEntries token http (l₁ ++ l₂) s =
      runEntries token http l₂ (runEntries token http l₁ s) := by
  induction l₁ generalizing s with
  | nil => rfl
  | cons e es ih => simpa [runEntries] using ih _

/-- The two counters together advance by exactly the number of entries run. -/
theorem runEntries_counters (token : String) (http : HttpClient)
    (es : List Entry) (s : RunState) :
    (runEntries token http es s).ok + (runEntries token http es s).fail =
      s.ok + s.fail + es.length := by
  induction es generalizing s with
  | nil => simp [runEntries]
  | cons e es ih =>
      rw [runEntries, ih]
      rcases review_counters token http e.key e.resolution e.comment e.label s with ⟨h1, h2⟩ | ⟨h1, h2⟩ <;>
        rw [h1, h2] <;> simp <;> omega

/-- The batch issues exactly one request per entry, in entry order. -/
theorem runEntries_requests (token : String) (http : HttpClient)
    (es : List Entry) (s : RunState) :
    (runEntries token http es s).requests =
      s.requests ++ es.map (fun e => mkRequest token e.key e.resolution e.comment) := by
  induction es generalizing s with
  | nil => simp [runEntries]
  | cons e es ih =>
      rw [runEntries, ih, review_requests]
      simp

/-! ### Console line classification -/

/-- A list keeps its prefix under `take` of at most the prefix length. -/
theorem take_prefix_of_append (p r : List Char) (n : Nat) (h : n ≤ p.length) :
    (p ++ r).take n = p.take n := by
  rw [List.take_append_eq_append_take]
  have h0 : n - p.length = 0 := by omega
  rw [h0, List.take_zero, List.append_nil]

/-- An OK line is a submission line. -/
theorem isSubmissionLine_ok (r : String) :
    isSubmissionLine ("  OK: " ++ r) = true := by
  unfold isSubmissionLine
  have h : ("  OK: " ++ r).data.take 6 = "  OK: ".data := by
    rw [String.data_append, take_prefix_of_append _ _ 6 (by decide)]
    decide
  rw [h]
  have h2 : decide ("  OK: ".data = "  OK: ".data) = true := by decide
  rw [h2, Bool.true_or]

/-- A FAIL line is a submission line. -/
theorem isSubmissionLine_fail (a b : String) :
    isSubmissionLine ("  FAIL: " ++ a ++ " - " ++ b) = true := by
  unfold isSubmissionLine
  have h : ("  FAIL: " ++ a ++ " - " ++ b).data.take 8 = "  FAIL: ".data := by
    simp only [String.data_append, List.append_assoc]
    rw [take_prefix_of_append _ _ 8 (by decide)]
    decide
  rw [h]
  have h2 : decide ("  FAIL: ".data = "  FAIL: ".data) = true := by decide
  rw [h2, Bool.or_true]

/-- The summary line is not a submission line. -/
theorem isSubmissionLine_summary (a b : Nat) :
    isSubmissionLine (summaryLine a b) = false := by
  have hd : (summaryLine a b).data = "Results: ".data ++
      ((toString a).data ++ ("/".data ++ ((toString (a + b)).data ++
        (" succeeded, ".data ++ ((toString b).data ++ " failed".data))))) := by
    unfold summaryLine
    simp only [String.data_append, List.append_assoc]
  unfold isSubmissionLine
  rw [hd, take_prefix_of_append _ _ 6 (by decide), take_prefix_of_append _ _ 8 (by decide)]
  decide

/-- The batch appends one submission line per entry to the console output. -/
theorem runEntries_output (token : String) (http : HttpClient)
    (es : List Entry) (s : RunState) :
    ∃ t : List String,
      (runEntries token http es s).output = s.output ++ t ∧
      t.length = es.length ∧
      ∀ l ∈ t, isSubmissionLine l = true := by
  induction es generalizing s with
  | nil => exact ⟨[], by simp [runEntries]⟩
  | cons e es ih =>
      rw [runEntries]
      obtain ⟨t, h1, h2, h3⟩ := ih (review token http e.key e.resolution e.comment e.label s)
      cases h : http s.requests.length (mkRequest token e.key e.resolution e.comment) with
      | ok u =>
          refine ⟨("  OK: " ++ e.label) :: t, ?_, by simp [h2], ?_⟩
          · rw [h1, review_ok_eq token http e.key e.resolution e.comment e.label s u h]
            simp
          · intro l hl
            rcases List.mem_cons.mp hl with hl | hl
            · rw [hl]; exact isSubmissionLine_ok e.label
            · exact h3 l hl
      | error err =>
          refine ⟨("  FAIL: " ++ e.label ++ " - " ++ err) :: t, ?_, by simp [h2], ?_⟩
          · rw [h1, review_error_eq token http e.key e.resolution e.comment e.label err s h]
            simp
          · intro l hl
            rcases List.mem_cons.mp hl with hl | hl
            · rw [hl]; exact isSubmissionLine_fail e.label err
            · exact h3 l hl

/-! ### The toplevel run with a present credential -/

/-- With a present token the script runs the whole table and then prints the
blank line and the summary, exiting 0. -/
theorem script_run (tok : String) (http : HttpClient) (h : tok ≠ "") :
    script (some tok) http =
      { output := (runEntries tok http table initState).output ++
          ["", summaryLine (runEntries tok http table initState).ok
            (runEntries tok http table initState).fail]
        exitCode := 0
        requests := (runEntries tok http table initState).requests } := by
  simp only [script, Option.getD_some, if_neg h]

/-! ### Claims -/

/-- C1: after the last table entry is processed the script prints a blank
line and exactly one summary line "Results: ok/(ok+fail) succeeded, fail
failed", where the first number is the final success counter, the
denominator is the number of entries attempted (equal to the table length),
and the trailing number is the final failure counter; for every oracle,
hence for every mix of per-entry outcomes; with 2 successes and 1 failure
the line reads "Results: 2/3 succeeded, 1 failed". -/
theorem summary_line_matches_counters (tok : String) (http : HttpClient) (h : tok ≠ "") :
    (script (some tok) http).output =
      (runEntries tok http table initState).output ++
        ["", "Results: " ++ toString (runEntries tok http table initState).ok ++ "/" ++
          toString ((runEntries tok http table initState).ok +
            (runEntries tok http table initState).fail) ++
          " succeeded, " ++ toString (runEntries tok http table initState).fail ++ " failed"] ∧
    (runEntries tok http table initState).ok + (runEntries tok http table initState).fail =
      table.length ∧
    summaryLine 2 1 = "Results: 2/3 succeeded, 1 failed" := by
  refine ⟨?_, ?_, by decide⟩
  · rw [script_run tok http h]
    rfl
  · rw [runEntries_counters]
    rfl

theorem summary_line_matches_counters_witness :
    ("t" : String) ≠ "" ∧
    ((script (some "t") httpMixed).output =
      (runEntries "t" httpMixed table initState).output ++
        ["", "Results: " ++ toString (runEntries "t" httpMixed table initState).ok ++ "/" ++
          toString ((runEntries "t" httpMixed table initState).ok +
            (runEntries "t" httpMixed table initState).fail) ++
          " succeeded, " ++ toString (runEntries "t" httpMixed table initState).fail ++ " failed"] ∧
    (runEntries "t" httpMixed table initState).ok +
      (runEntries "t" httpMixed table initState).fail = table.length ∧
    summaryLine 2 1 = "Results: 2/3 succeeded, 1 failed") :=
  ⟨by decide, summary_line_matches_counters "t" httpMixed (by decide)⟩

/-- C2: when the HTTP call of a submission raises, the failure counter
increments by exactly one, the success counter is unchanged, the line
"  FAIL: label - error" is printed, and the exception is swallowed: for any
oracle whatsoever the batch still prints one line per table entry plus the
blank line and the summary line, which is the last line of the run. -/
theorem fail_swallowed (tok : String) (http : HttpClient)
    (key res comment label e : String) (s : RunState)
    (htok : tok ≠ "")
    (hraise : http s.requests.length (mkRequest tok key res comment) = Except.error e) :
    (review tok http key res comment label s).fail = s.fail + 1 ∧
    (review tok http key res comment label s).ok = s.ok ∧
    (review tok http key res comment label s).output =
      s.output ++ ["  FAIL: " ++ label ++ " - " ++ e] ∧
    (script (some tok) http).output.length = table.length + 2 ∧
    (script (some tok) http).output.getLast? =
      some (summaryLine (runEntries tok http table initState).ok
        (runEntries tok http table initState).fail) := by
  rw [review_error_eq tok http key res comment label e s hraise]
  refine ⟨rfl, rfl, rfl, ?_, ?_⟩
  · rw [script_run tok http htok]
    obtain ⟨t, h1, h2, _⟩ := runEntries_output tok http table initState
    rw [h1]
    simp [initState, h2]
  · rw [script_run tok http htok]
    have : (runEntries tok http table initState).output ++
        ["", summaryLine (runEntries tok http table initState).ok
          (runEntries tok http table initState).fail] =
        ((runEntries tok http table initState).output ++ [""]) ++
        [summaryLine (runEntries tok http table initState).ok
          (runEntries tok http table initState).fail] := by
      simp
    rw [this]
    exact List.getLast?_concat _

theorem fail_swallowed_witness :
    (("t" : String) ≠ "" ∧
      httpAllFail initState.requests.length (mkRequest "t" "k" "SAFE" "c") =
        Except.error "HTTP Error 404: Not Found") ∧
    ((review "t" httpAllFail "k" "SAFE" "c" "lbl" initState).fail = initState.fail + 1 ∧
    (review "t" httpAllFail "k" "SAFE" "c" "lbl" initState).ok = initState.ok ∧
    (review "t" httpAllFail "k" "SAFE" "c" "lbl" initState).output =
      initState.output ++ ["  FAIL: " ++ "lbl" ++ " - " ++ "HTTP Error 404: Not Found"] ∧
    (script (some "t") httpAllFail).output.length = table.length + 2 ∧
    (script (some "t") httpAllFail).output.getLast? =
      some (summaryLine (runEntries "t" httpAllFail table initState).ok
        (runEntries "t" httpAllFail table initState).fail)) :=
  ⟨⟨by decide, rfl⟩,
    fail_swallowed "t" httpAllFail "k" "SAFE" "c" "lbl" "HTTP Error 404: Not Found"
      initState (by decide) rfl⟩

/-- C3: when the HTTP call of a submission returns without raising, the
success counter increments by exactly one, the failure counter is unchanged,
and the line "  OK: label" is printed. -/
theorem ok_path_increments (tok : String) (http : HttpClient)
    (key res comment label : String) (s : RunState) (u : Unit)
    (hret : http s.requests.length (mkRequest tok key res comment) = Except.ok u) :
    (review tok http key res comment label s).ok = s.ok + 1 ∧
    (review tok http key res comment label s).fail = s.fail ∧
    (review tok http key res comment label s).output =
      s.output ++ ["  OK: " ++ label] := by
  rw [review_ok_eq tok http key res comment label s u hret]
  exact ⟨rfl, rfl, rfl⟩

theorem ok_path_increments_witness :
    (httpAllOk initState.requests.length (mkRequest "t" "k" "SAFE" "c") = Except.ok ()) ∧
    ((review "t" httpAllOk "k" "SAFE" "c" "lbl" initState).ok = initState.ok + 1 ∧
    (review "t" httpAllOk "k" "SAFE" "c" "lbl" initState).fail = initState.fail ∧
    (review "t" httpAllOk "k" "SAFE" "c" "lbl" initState).output =
      initState.output ++ ["  OK: " ++ "lbl"]) :=
  ⟨rfl, ok_path_increments "t" httpAllOk "k" "SAFE" "c" "lbl" initState () rfl⟩

/-- C4: with the credential environment variable absent or empty the script
prints exactly the two diagnostic lines (the second being the token URL),
exits with code 1, and issues no request at all. -/
theorem missing_token_aborts (env : Option String) (http : HttpClient)
    (h : env.getD "" = "") :
    (script env http).output = ["ERROR: Set SONAR_TOKEN env var first.",
      "Get one from: https://sonarcloud.io/account/security"] ∧
    (script env http).exitCode = 1 ∧
    (script env http).requests = [] := by
  simp [script, h]

theorem missing_token_aborts_witness :
    ((none : Option String).getD "" = "") ∧
    ((script none httpAllOk).output = ["ERROR: Set SONAR_TOKEN env var first.",
      "Get one from: https://sonarcloud.io/account/security"] ∧
    (script none httpAllOk).exitCode = 1 ∧
    (script none httpAllOk).requests = []) :=
  ⟨rfl, missing_token_aborts none httpAllOk rfl⟩

/-- C5: every request posts to the fixed endpoint the url-encoded form of
exactly the four fields hotspot, status (literal REVIEWED), resolution and
comment, and carries Basic auth with the token as username and empty
password; on concrete inputs the body and header have the expected encoded
values. -/
theorem request_shape (tok key res comment : String) :
    mkRequest tok key res comment =
      { url := API
        method := "POST"
        body := urlencode [("hotspot", key), ("status", "REVIEWED"),
          ("resolution", res), ("comment", comment)]
        headers := [("Authorization", "Basic " ++ b64encode (tok ++ ":"))] } ∧
    (mkRequest "abc" "K1" "SAFE" "a b, (x)").body =
      "hotspot=K1&status=REVIEWED&resolution=SAFE&comment=a+b%2C+%28x%29" ∧
    (mkRequest "abc" "K1" "SAFE" "a b, (x)").headers =
      [("Authorization", "Basic YWJjOg==")] ∧
    b64encode ("token-value" ++ ":") = "dG9rZW4tdmFsdWU6" :=
  ⟨rfl, by decide, by decide, by decide⟩

/-- C6: with a present credential the submitter runs exactly once per table
entry, in table order (the issued request list is the entry-wise image of
the table), and every entry carries the resolution literal SAFE; no entry is
skipped or repeated. -/
theorem batch_order (tok : String) (http : HttpClient) (h : tok ≠ "") :
    (script (some tok) http).requests =
      table.map (fun e => mkRequest tok e.key e.resolution e.comment) ∧
    (script (some tok) http).requests.length = table.length ∧
    table.all (fun e => e.resolution == "SAFE") = true := by
  have hr : (script (some tok) http).requests =
      table.map (fun e => mkRequest tok e.key e.resolution e.comment) := by
    rw [script_run tok http h]
    show (runEntries tok http table initState).requests = _
    rw [runEntries_requests]
    simp [initState]
  refine ⟨hr, ?_, by decide⟩
  rw [hr, List.length_map]

theorem batch_order_witness :
    ("t" : String) ≠ "" ∧
    ((script (some "t") httpAllOk).requests =
      table.map (fun e => mkRequest "t" e.key e.resolution e.comment) ∧
    (script (some "t") httpAllOk).requests.length = table.length ∧
    table.all (fun e => e.resolution == "SAFE") = true) :=
  ⟨by decide, batch_order "t" httpAllOk (by decide)⟩

/-- C7: the process exit code is 1 exactly when the credential is missing or
empty, and 0 in every other run, regardless of submission failures; in
particular a run on which every call raises still exits 0. -/
theorem exit_code_spec (env : Option String) (http : HttpClient) :
    (script env http).exitCode = (if env.getD "" = "" then 1 else 0) ∧
    (script (some "t") httpAllFail).exitCode = 0 ∧
    (script none httpAllOk).exitCode = 1 := by
  refine ⟨?_, rfl, rfl⟩
  by_cases h : env.getD "" = "" <;> simp [script, h]

/-- C8: the label argument never reaches the outbound request: two calls of
the submitter differing only in the label issue identical request lists,
leave identical counters, and can differ at most in the one console line
just printed. -/
theorem label_only_logged (tok : String) (http : HttpClient)
    (key res comment l1 l2 : String) (s : RunState) :
    (review tok http key res comment l1 s).requests =
      (review tok http key res comment l2 s).requests ∧
    (review tok http key res comment l1 s).ok =
      (review tok http key res comment l2 s).ok ∧
    (review tok http key res comment l1 s).fail =
      (review tok http key res comment l2 s).fail ∧
    (review tok http key res comment l1 s).output.dropLast =
      (review tok http key res comment l2 s).output.dropLast := by
  cases h : http s.requests.length (mkRequest tok key res comment) with
  | ok u =>
      rw [review_ok_eq tok http key res comment l1 s u h,
        review_ok_eq tok http key res comment l2 s u h]
      exact ⟨rfl, rfl, rfl, by rw [List.dropLast_concat, List.dropLast_concat]⟩
  | error e =>
      rw [review_error_eq tok http key res comment l1 e s h,
        review_error_eq tok http key res comment l2 e s h]
      exact ⟨rfl, rfl, rfl, by rw [List.dropLast_concat, List.dropLast_concat]⟩

/-- Unfolding one step of the batch at position `i` of the table. -/
theorem stateAfter_succ (tok : String) (http : HttpClient) (i : Nat)
    (hi : i < table.length) :
    stateAfter tok http (i + 1) =
      review tok http (table.get ⟨i, hi⟩).key (table.get ⟨i, hi⟩).resolution
        (table.get ⟨i, hi⟩).comment (table.get ⟨i, hi⟩).label
        (stateAfter tok http i) := by
  unfold stateAfter
  rw [← List.take_concat_get table i hi, List.concat_eq_append, runEntries_append]
  rfl

/-- C9: the two counters start at zero; after the first n submissions their
sum is n, so each completed submission advances the total by one; every
single submission increments exactly one of them by one and leaves the other
unchanged, and both are non-decreasing from step to step. -/
theorem counters_invariant (tok : String) (http : HttpClient) (n i : Nat)
    (hn : n ≤ table.length) (hi : i < table.length) :
    initState.ok = 0 ∧ initState.fail = 0 ∧
    (stateAfter tok http n).ok + (stateAfter tok http n).fail = n ∧
    (((stateAfter tok http (i + 1)).ok = (stateAfter tok http i).ok + 1 ∧
      (stateAfter tok http (i + 1)).fail = (stateAfter tok http i).fail) ∨
     ((stateAfter tok http (i + 1)).fail = (stateAfter tok http i).fail + 1 ∧
      (stateAfter tok http (i + 1)).ok = (stateAfter tok http i).ok)) ∧
    (stateAfter tok http i).ok ≤ (stateAfter tok http (i + 1)).ok ∧
    (stateAfter tok http i).fail ≤ (stateAfter tok http (i + 1)).fail := by
  have hsum : (stateAfter tok http n).ok + (stateAfter tok http n).fail = n := by
    unfold stateAfter
    rw [runEntries_counters]
    simp [initState, List.length_take, Nat.min_eq_left hn]
  have hstep := stateAfter_succ tok http i hi
  have hdisj := review_counters tok http (table.get ⟨i, hi⟩).key
    (table.get ⟨i, hi⟩).resolution (table.get ⟨i, hi⟩).comment
    (table.get ⟨i, hi⟩).label (stateAfter tok http i)
  rw [← hstep] at hdisj
  refine ⟨rfl, rfl, hsum, hdisj, ?_, ?_⟩ <;>
    rcases hdisj with ⟨h1, h2⟩ | ⟨h1, h2⟩ <;> omega

theorem counters_invariant_witness :
    (2 ≤ table.length ∧ 0 < table.length) ∧
    (initState.ok = 0 ∧ initState.fail = 0 ∧
    (stateAfter "t" httpMixed 2).ok + (stateAfter "t" httpMixed 2).fail = 2 ∧
    (((stateAfter "t" httpMixed (0 + 1)).ok = (stateAfter "t" httpMixed 0).ok + 1 ∧
      (stateAfter "t" httpMixed (0 + 1)).fail = (stateAfter "t" httpMixed 0).fail) ∨
     ((stateAfter "t" httpMixed (0 + 1)).fail = (stateAfter "t" httpMixed 0).fail + 1 ∧
      (stateAfter "t" httpMixed (0 + 1)).ok = (stateAfter "t" httpMixed 0).ok)) ∧
    (stateAfter "t" httpMixed 0).ok ≤ (stateAfter "t" httpMixed (0 + 1)).ok ∧
    (stateAfter "t" httpMixed 0).fail ≤ (stateAfter "t" httpMixed (0 + 1)).fail) :=
  ⟨⟨by decide, by decide⟩, counters_invariant "t" httpMixed 2 0 (by decide) (by decide)⟩

/-- A blank console line is not a submission line. -/
theorem isSubmissionLine_blank : isSubmissionLine "" = false := by decide

/-- C10: the static table holds exactly 59 entries, so a run with a present
credential makes exactly 59 submission attempts, prints exactly 59
submission lines among its 61 output lines, and the two counters sum to 59
in the summary denominator. -/
theorem table_size_run (tok : String) (http : HttpClient) (h : tok ≠ "") :
    table.length = 59 ∧
    (script (some tok) http).requests.length = 59 ∧
    (script (some tok) http).output.length = 61 ∧
    (runEntries tok http table initState).ok +
      (runEntries tok http table initState).fail = 59 ∧
    (script (some tok) http).output.countP isSubmissionLine = 59 := by
  have hlen : table.length = 59 := rfl
  obtain ⟨t, h1, h2, h3⟩ := runEntries_output tok http table initState
  refine ⟨hlen, ?_, ?_, ?_, ?_⟩
  · rw [script_run tok http h]
    show (runEntries tok http table initState).requests.length = 59
    rw [runEntries_requests]
    simp [initState, hlen]
  · rw [script_run tok http h]
    show ((runEntries tok http table initState).output ++ [_, _]).length = 61
    rw [h1]
    simp [initState, h2, hlen]
  · rw [runEntries_counters]
    simp [initState, hlen]
  · rw [script_run tok http h]
    show ((runEntries tok http table initState).output ++
      ["", summaryLine (runEntries tok http table initState).ok
        (runEntries tok http table initState).fail]).countP isSubmissionLine = 59
    have h1t : (runEntries tok http table initState).output = t := by
      rw [h1]; rfl
    rw [h1t, List.countP_append, List.countP_eq_length.mpr h3]
    have hc : List.countP isSubmissionLine
        ["", summaryLine (runEntries tok http table initState).ok
          (runEntries tok http table initState).fail] = 0 := by
      simp [List.countP_cons, List.countP_nil, isSubmissionLine_summary,
        isSubmissionLine_blank]
    rw [hc]
    simp [initState, h2, hlen]

theorem table_size_run_witness :
    ("t" : String) ≠ "" ∧
    (table.length = 59 ∧
    (script (some "t") httpAllOk).requests.length = 59 ∧
    (script (some "t") httpAllOk).output.length = 61 ∧
    (runEntries "t" httpAllOk table initState).ok +
      (runEntries "t" httpAllOk table initState).fail = 59 ∧
    (script (some "t") httpAllOk).output.countP isSubmissionLine = 59) :=
  ⟨by decide, table_size_run "t" httpAllOk (by decide)⟩
